import Mathlib

/-!
Verification of the `service` lifecycle library.

A shallow embedding of the lifecycle driver (`src/service.go`, `Service.execute`),
the phase enumeration (`src/phase.go`), and the multi-service manager
(`src/manager.go`), together with theorems settling the specification claims.

Hooks (`Init`, `Run`, `Shutdown`) are modelled by the error value they return
when invoked; the driver and the manager operations additionally produce an
event trace recording which hooks were invoked (and, for the manager, the
lock operations), so that "X is never invoked" and "the lock is held while
calling into service code" become statements about the trace.
-/

namespace ServiceSpec

/-- A raw Go `error` value as produced by a service hook: either the
`context.Canceled` sentinel or an opaque non-cancellation error identified
by a tag.  `errors.Is(err, context.Canceled)` on such a value is modelled
by `errorsIsCanceled`. -/
inductive Err where
  | canceled : Err
  | leaf : Nat → Err
deriving DecidableEq, Repr

/-- Go's `errors.Is(e, context.Canceled)` on a raw hook error. -/
def errorsIsCanceled : Err → Bool
  | .canceled => true
  | .leaf _ => false

/-- Modelled from the spec: the error value built by the `github.com/aledantee/ae`
builder, whose source is not part of this repository.  Per §9 of the spec the
aggregation utilities produce "an explicit multi-cause error type carrying a
list of (identity, cause) pairs" with "structured access to each cause": we
model the builder result as a record of the attribute pairs, the primary
cause, the related errors and the message, each independently inspectable. -/
structure AeError where
  attrs : List (String × String)
  cause : Option Err
  related : List Err
  msg : String
deriving DecidableEq, Repr

/-- Modelled from the spec: the in-progress state of the `ae.New()` builder
(`github.com/aledantee/ae` is not under src/). -/
structure AeBuilder where
  attrs : List (String × String)
  cause : Option Err
  related : List Err
deriving DecidableEq, Repr

/-- `ae.New()`. -/
def AeBuilder.new : AeBuilder := ⟨[], none, []⟩

/-- `builder.Attr(k, v)`. -/
def AeBuilder.Attr (b : AeBuilder) (k v : String) : AeBuilder :=
  { b with attrs := b.attrs ++ [(k, v)] }

/-- `builder.Cause(e)`: sets the primary cause. -/
def AeBuilder.Cause (b : AeBuilder) (e : Err) : AeBuilder :=
  { b with cause := some e }

/-- `builder.Related(e)`: attaches a related error; a nil argument is ignored
(the call site in `Service.execute` carries the comment
"will be ignored if nil"). -/
def AeBuilder.Related (b : AeBuilder) (e : Option Err) : AeBuilder :=
  match e with
  | none => b
  | some e => { b with related := b.related ++ [e] }

/-- `builder.Msg(m)`: finishes the builder into an error value. -/
def AeBuilder.Msg (b : AeBuilder) (m : String) : AeError :=
  ⟨b.attrs, b.cause, b.related, m⟩

/-- The lifecycle phase enumeration of `src/phase.go` (the integer variant used
by `src/service.go`: Waiting, Initializing, Running, ShuttingDown, Error,
Stopped).  `unspecified` is the distinguished value returned by
`manager.Phase` for unknown ids; `PhaseUnspecified` is referenced by
`src/manager.go` but its constant declaration is not under src/, so that
case is modelled from the spec ("returns a distinguished 'unspecified' value
for unknown ids instead of failing"). -/
inductive Phase where
  | unspecified : Phase
  | waiting : Phase
  | initializing : Phase
  | running : Phase
  | shuttingDown : Phase
  | stopped : Phase
  | error : Phase
deriving DecidableEq, Repr

/-- The `Service` struct of `src/service.go`.  The hook fields are nilable
function pointers: `none` models a nil hook, `some r` models a hook that,
when invoked, returns the Go error modelled by `r : Option Err`
(`none` = nil error).  `phase` is the private phase field (Go zero value
`PhaseWaiting`). -/
structure Service where
  Name : String
  Version : String
  Init : Option (Option Err)
  Run : Option (Option Err)
  Shutdown : Option (Option Err)
  phase : Phase
deriving DecidableEq, Repr

/-- `Service.IsRunning` from `src/service.go`: true iff the phase differs from
`PhaseWaiting`. -/
def Service.IsRunning (s : Service) : Bool :=
  s.phase != Phase.waiting

/-- A hook invocation performed by the execution driver. -/
inductive Event where
  | callInit : Event
  | callRun : Event
  | callShutdown : Event
deriving DecidableEq, Repr

/-- The driver's external inputs that are read from the environment:
whether `OtelEnabled()` holds, and the error (if any) produced by
`Service.initOtel` when it runs. -/
structure ExecEnv where
  otelEnabled : Bool
  otelInitErr : Option Err
deriving DecidableEq, Repr

/-- The observable outcome of one `Service.execute` call: the service's final
phase field, the returned error (`none` = nil) and the trace of hook
invocations. -/
structure ExecOut where
  phase : Phase
  result : Option AeError
  events : List Event
deriving DecidableEq, Repr

/-- The `else if`/`else` tail of `Service.execute`'s final return:
`shutdownErr != nil && !errors.Is(shutdownErr, context.Canceled)` yields the
"service shutdown failed" error, otherwise nil. -/
def shutdownOnlyResult (errBuilder : AeBuilder) (shutdownErr : Option Err) :
    Option AeError :=
  match shutdownErr with
  | some se =>
      if errorsIsCanceled se then none
      else some ((errBuilder.Cause se).Msg "service shutdown failed")
  | none => none

/-- The final `if err != nil && !errors.Is(err, context.Canceled) ... else if
... else ...` of `Service.execute` (src/service.go lines 205-214). -/
def finalResult (errBuilder : AeBuilder) (err shutdownErr : Option Err) :
    Option AeError :=
  match err with
  | some e =>
      if errorsIsCanceled e then shutdownOnlyResult errBuilder shutdownErr
      else some (((errBuilder.Cause e).Related shutdownErr).Msg "service failed")
  | none => shutdownOnlyResult errBuilder shutdownErr

/-- The portion of `Service.execute` from `err := s.Run(s)` onwards
(src/service.go lines 191-214): invoke `Run`, invoke `Shutdown` if present,
set the final phase from the shutdown error alone, and compose the result. -/
def execRest (errBuilder : AeBuilder) (initEvents : List Event)
    (runRet : Option Err) (shutdownHook : Option (Option Err)) : ExecOut :=
  let shutdownErr : Option Err :=
    match shutdownHook with
    | none => none
    | some r => r
  let sdEvents : List Event :=
    match shutdownHook with
    | none => []
    | some _ => [Event.callShutdown]
  { phase := if shutdownErr.isSome then Phase.error else Phase.stopped
    result := finalResult errBuilder runRet shutdownErr
    events := initEvents ++ [Event.callRun] ++ sdEvents }

/-- `Service.execute` from `src/service.go` (lines 147-215).  The guards, the
OpenTelemetry initialization, the optional `Init` hook, then `execRest`.
Logging and the context plumbing have no observable effect and are omitted;
`env` supplies the `OtelEnabled()` flag and the `initOtel` outcome. -/
def Service.execute (env : ExecEnv) (s : Service) : ExecOut :=
  let errBuilder :=
    (AeBuilder.new.Attr "service.name" s.Name).Attr "service.version" s.Version
  match s.Run with
  | none =>
      { phase := s.phase
        result := some (errBuilder.Msg "service has no Run method")
        events := [] }
  | some runRet =>
      if s.phase ≠ Phase.waiting then
        { phase := s.phase
          result := some (errBuilder.Msg "service is already running")
          events := [] }
      else
        match (if env.otelEnabled then env.otelInitErr else none) with
        | some e =>
            { phase := Phase.initializing
              result := some ((errBuilder.Cause e).Msg
                "failed to initialize OpenTelemetry")
              events := [] }
        | none =>
            match s.Init with
            | some (some e) =>
                { phase := Phase.initializing
                  result := some ((errBuilder.Cause e).Msg
                    "failed to initialize service")
                  events := [Event.callInit] }
            | some none => execRest errBuilder [Event.callInit] runRet s.Shutdown
            | none => execRest errBuilder [] runRet s.Shutdown

/-! The manager (`src/manager.go`).

The manager stores services in a map keyed by `name + "@" + version`.  Its
services are values of the `Service` interface variant (`Name()`, `Version()`,
`Init`, `Run`, `Shutdown`, plus the `Phase()` and `Wait()` accessors used by
`manager.Phase` and `manager.Wait`); such a value is modelled as `MSvc`,
each method by the value it returns when invoked.  The map is modelled as an
association list in insertion order (a deterministic refinement of the Go
map; no claim depends on iteration order).  Every operation returns the new
map, its return value, and a trace of lock operations and service-hook
invocations, read off the source line by line. -/

/-- A service managed by `manager` (the interface variant of `Service`):
each method is modelled by the value it returns when invoked.  `Phase()` and
`Wait()` are declared on the interface used by `src/manager.go`; the
interface declaration with those methods is not itself under src/, so their
result fields model the spec's "current phase, read under a shared lock" and
"the terminal Execution result translated to a single error". -/
structure MSvc where
  name : String
  version : String
  initRes : Option Err
  runRes : Option Err
  shutdownRes : Option Err
  phase : Phase
  waitRes : Option Err
deriving DecidableEq, Repr

/-- The record map of `manager`: association list keyed by the identity
string, in insertion order. -/
abbrev Manager := List (String × MSvc)

/-- Lookup in the record map (`m.services[id]`). -/
def mlookup (m : Manager) (id : String) : Option MSvc :=
  match m with
  | [] => none
  | (k, s) :: rest => if k = id then some s else mlookup rest id

/-- An observable step of a manager operation: a lock operation on
`servicesMtx`, a map access, or an invocation of a service hook (tagged with
the identity key of the service invoked). -/
inductive MEvent where
  | rlock : MEvent
  | runlock : MEvent
  | lock : MEvent
  | unlock : MEvent
  | mapRead : MEvent
  | mapWrite : MEvent
  | callInit : String → MEvent
  | callRun : String → MEvent
  | callShutdown : String → MEvent
  | callWait : String → MEvent
deriving DecidableEq, Repr

/-- Result of a manager operation: the record map afterwards, the returned
value, and the event trace. -/
structure MOut (α : Type) where
  m : Manager
  ret : α
  tr : List MEvent
deriving DecidableEq, Repr

/-- The guarded id-lookup prologue shared by the targeted operations:
`RLock`, map read, `RUnlock`. -/
def lookupTrace : List MEvent := [MEvent.rlock, MEvent.mapRead, MEvent.runlock]

/-- `manager.Run` (src/manager.go lines 75-103): duplicate-identity check
under the read lock; on a duplicate, return the "service already running"
usage error without invoking anything; otherwise invoke `Init` synchronously
(before any lock is taken for insertion), fail with "service failed to
initialize" if it errs, else insert the record under the write lock and
launch `Run` concurrently, returning the id. -/
def Manager.Run (m : Manager) (s : MSvc) : MOut (String × Option AeError) :=
  let id := s.name ++ "@" ++ s.version
  match mlookup m id with
  | some _ =>
      { m := m
        ret := ("", some (((AeBuilder.new.Attr "name" s.name).Attr
          "version" s.version).Msg "service already running"))
        tr := lookupTrace }
  | none =>
      match s.initRes with
      | some e =>
          { m := m
            ret := ("", some ((((AeBuilder.new.Attr "name" s.name).Attr
              "version" s.version).Cause e).Msg "service failed to initialize"))
            tr := lookupTrace ++ [MEvent.callInit id] }
      | none =>
          { m := m ++ [(id, s)]
            ret := (id, none)
            tr := lookupTrace ++
              [MEvent.callInit id, MEvent.lock, MEvent.mapWrite, MEvent.unlock,
               MEvent.callRun id] }

/-- `manager.Phase` (src/manager.go lines 105-115): read the record under the
read lock; `PhaseUnspecified` when the id is unknown. -/
def Manager.Phase (m : Manager) (id : String) : MOut Phase :=
  match mlookup m id with
  | none => { m := m, ret := Phase.unspecified, tr := lookupTrace }
  | some s => { m := m, ret := s.phase, tr := lookupTrace }

/-- `manager.Shutdown` (src/manager.go lines 117-127): look the record up
under the read lock, release the lock, then invoke the service's `Shutdown`;
nil without any invocation for an unknown id. -/
def Manager.Shutdown (m : Manager) (id : String) : MOut (Option Err) :=
  match mlookup m id with
  | none => { m := m, ret := none, tr := lookupTrace }
  | some s =>
      { m := m
        ret := s.shutdownRes
        tr := lookupTrace ++ [MEvent.callShutdown id] }

/-- `manager.Wait` (src/manager.go lines 148-158): like `Shutdown` but
invoking the record's `Wait`. -/
def Manager.Wait (m : Manager) (id : String) : MOut (Option Err) :=
  match mlookup m id with
  | none => { m := m, ret := none, tr := lookupTrace }
  | some s =>
      { m := m
        ret := s.waitRes
        tr := lookupTrace ++ [MEvent.callWait id] }

/-- The per-service error wrapped into an aggregate: attrs for the name and
the version, the service's error as cause, and the fixed message. -/
def svcWrapErr (s : MSvc) (e : Err) (msg : String) : AeError :=
  (((AeBuilder.new.Attr "name" s.name).Attr "version" s.version).Cause e).Msg msg

/-- Modelled from the spec: the aggregate error produced by `ae.WrapMany`
(`github.com/aledantee/ae` is not under src/), "an explicit multi-cause error
type carrying a list of (identity, cause) pairs" (§9). -/
structure AggError where
  msg : String
  causes : List AeError
deriving DecidableEq, Repr

/-- Modelled from the spec: `ae.WrapMany(msg, errs...)` joins the collected
errors into one aggregate, and is nil when no error was collected ("when no
service fails the aggregate is nil"; `ShutdownAll`/`WaitAll` return "a joined
error from all services or nil if all services completed successfully"). -/
def WrapMany (msg : String) (errs : List AeError) : Option AggError :=
  match errs with
  | [] => none
  | _ => some ⟨msg, errs⟩

/-- `manager.ShutdownAll` (src/manager.go lines 129-146): take the write lock
(released only after the return value is computed, via `defer`), invoke every
record's `Shutdown`, collect the failures wrapped with the service's name and
version, and join them with `WrapMany`. -/
def Manager.ShutdownAll (m : Manager) : MOut (Option AggError) :=
  { m := m
    ret := WrapMany "at least one service failed to shut down"
      (m.filterMap fun p =>
        p.2.shutdownRes.map fun e => svcWrapErr p.2 e "service failed to shutdown")
    tr := [MEvent.lock] ++ (m.map fun p => MEvent.callShutdown p.1) ++
      [MEvent.unlock] }

/-- `manager.WaitAll` (src/manager.go lines 160-177): take the write lock
(released only after the return value is computed, via `defer`), invoke every
record's `Wait`, collect the failures wrapped with the service's name and
version, and join them with `WrapMany`. -/
def Manager.WaitAll (m : Manager) : MOut (Option AggError) :=
  { m := m
    ret := WrapMany "at least one service failed"
      (m.filterMap fun p =>
        p.2.waitRes.map fun e => svcWrapErr p.2 e "service exited with an error")
    tr := [MEvent.lock] ++ (m.map fun p => MEvent.callWait p.1) ++
      [MEvent.unlock] }

/-- Does the event acquire `servicesMtx` (in either mode)? -/
def MEvent.isAcquire : MEvent → Bool
  | .rlock => true
  | .lock => true
  | _ => false

/-- Does the event release `servicesMtx`? -/
def MEvent.isRelease : MEvent → Bool
  | .runlock => true
  | .unlock => true
  | _ => false

/-- Is the event an invocation of service code? -/
def MEvent.isSvcCall : MEvent → Bool
  | .callInit _ => true
  | .callRun _ => true
  | .callShutdown _ => true
  | .callWait _ => true
  | _ => false

/-- Scans a trace left to right tracking the lock-hold depth `d`; true iff
some service-code invocation happens while the lock is held. -/
def svcCallWhileLockedFrom (d : Nat) : List MEvent → Bool
  | [] => false
  | e :: rest =>
      (e.isSvcCall && d != 0) ||
        svcCallWhileLockedFrom
          (if e.isAcquire then d + 1 else if e.isRelease then d - 1 else d) rest

/-- True iff the trace invokes service code while holding `servicesMtx`. -/
def svcCallWhileLocked (tr : List MEvent) : Bool :=
  svcCallWhileLockedFrom 0 tr

/-! Derived helpers and concrete inputs used by the claim theorems. -/

/-- The effective shutdown error of one driver pass: nil when the hook is
absent, otherwise the hook's result (src/service.go lines 192-197). -/
def shutdownErrOf (s : Service) : Option Err :=
  match s.Shutdown with
  | none => none
  | some r => r

/-- Number of records registered under the given identity key. -/
def countKey (m : Manager) (id : String) : Nat :=
  (m.filter fun p => p.1 == id).length

/-- An environment with OpenTelemetry disabled. -/
def envNoOtel : ExecEnv := ⟨false, none⟩

/-- A fresh service whose `Init` hook fails with a non-nil error. -/
def initFailSvc : Service :=
  ⟨"svc", "1.0.0", some (some (Err.leaf 0)), some none, some none, Phase.waiting⟩

/-- A fresh service whose hooks all succeed. -/
def happySvc : Service :=
  ⟨"svc", "1.0.0", some none, some none, some none, Phase.waiting⟩

/-- A fresh service whose `Run` fails with a non-cancellation error and whose
`Shutdown` also fails. -/
def bothFailSvc : Service :=
  ⟨"svc", "1.0.0", some none, some (some (Err.leaf 1)), some (some (Err.leaf 2)),
   Phase.waiting⟩

/-- A fresh service whose `Run` fails with cancellation and whose `Shutdown`
returns the non-nil error `context.Canceled`. -/
def cancelCancelSvc : Service :=
  ⟨"svc", "1.0.0", none, some (some Err.canceled), some (some Err.canceled),
   Phase.waiting⟩

/-- A fresh service whose `Run` fails with cancellation and whose `Shutdown`
fails with a non-cancellation error. -/
def cancelSdFailSvc : Service :=
  ⟨"svc", "1.0.0", none, some (some Err.canceled), some (some (Err.leaf 2)),
   Phase.waiting⟩

/-- A fresh service whose `Run` fails with a non-cancellation error and whose
`Shutdown` succeeds. -/
def runFailSdOkSvc : Service :=
  ⟨"svc", "1.0.0", none, some (some (Err.leaf 1)), some none, Phase.waiting⟩

/-- A service value whose phase field has reached the terminal `stopped`. -/
def stoppedSvc : Service :=
  ⟨"svc", "1.0.0", none, some none, none, Phase.stopped⟩

/-- A managed service whose `Shutdown` and `Wait` both fail. -/
def msvcA : MSvc :=
  ⟨"alpha", "1.0.0", none, none, some (Err.leaf 7), Phase.running, some (Err.leaf 8)⟩

/-- A managed service whose `Shutdown` and `Wait` both succeed. -/
def msvcB : MSvc :=
  ⟨"beta", "2.0.0", none, none, none, Phase.running, none⟩

/-- A managed service with the same (name, version) identity as `msvcA`. -/
def msvcDup : MSvc :=
  ⟨"alpha", "1.0.0", none, none, none, Phase.waiting, none⟩

/-- A manager with two registered records, one failing and one succeeding. -/
def mgrTwo : Manager := [("alpha@1.0.0", msvcA), ("beta@2.0.0", msvcB)]

/-- A manager with a single registered record. -/
def mgrOne : Manager := [("alpha@1.0.0", msvcA)]

/-! Theorems.  One theorem per claim (plus witnesses and counterexamples),
preceded by shared helper lemmas about the driver's guard chain. -/

/-- When the guards pass — `Run` is present, the phase field is `waiting`,
OpenTelemetry initialization does not fail, and `Init` is absent or succeeds —
`Service.execute` reduces to `execRest`. -/
theorem execute_eq_execRest (env : ExecEnv) (s : Service) (runRet : Option Err)
    (hrun : s.Run = some runRet) (hph : s.phase = Phase.waiting)
    (hotel : env.otelEnabled = true → env.otelInitErr = none)
    (hinit : ∀ e, s.Init ≠ some (some e)) :
    Service.execute env s =
      execRest ((AeBuilder.new.Attr "service.name" s.Name).Attr
          "service.version" s.Version)
        (if s.Init.isSome then [Event.callInit] else []) runRet s.Shutdown := by
  have hO : (if env.otelEnabled then env.otelInitErr else none) = none := by
    cases hE : env.otelEnabled
    · simp
    · simpa using hotel hE
  rcases hI : s.Init with _ | r
  · simp [Service.execute, hrun, hph, hO, hI]
  · rcases r with _ | e
    · simp [Service.execute, hrun, hph, hO, hI]
    · exact absurd hI (hinit e)

/-- Claim C1.  For every service whose `Init` hook returns a non-nil error, the
driver invokes neither `Run` nor `Shutdown` and returns the "failed to
initialize service" error carrying the `Init` cause; however, the phase field
is left at `Initializing` — it never reaches `Error`, contradicting both the
spec's transition table and `phase.go`'s own documentation of `PhaseError`
("the service encountered an error during initialization").  Evaluated here
at the concrete failing input `initFailSvc`. -/
theorem c1_init_failure_leaves_phase_initializing :
    (Service.execute envNoOtel initFailSvc).events = [Event.callInit] ∧
    (Service.execute envNoOtel initFailSvc).result =
      some ⟨[("service.name", "svc"), ("service.version", "1.0.0")],
        some (Err.leaf 0), [], "failed to initialize service"⟩ ∧
    (Service.execute envNoOtel initFailSvc).phase = Phase.initializing ∧
    (Service.execute envNoOtel initFailSvc).phase ≠ Phase.error := by
  refine ⟨rfl, rfl, rfl, by decide⟩

/-- Claim C2.  For every service with a non-nil `Shutdown` hook whose `Run` is
invoked by the driver, `Shutdown` is invoked exactly once, and as the last
hook invocation of the pass — in particular after `Run` returns — regardless
of `Run`'s outcome. -/
theorem c2_shutdown_exactly_once_after_run (env : ExecEnv) (s : Service)
    (hsd : s.Shutdown ≠ none)
    (hrun : Event.callRun ∈ (Service.execute env s).events) :
    (Service.execute env s).events.count Event.callShutdown = 1 ∧
    (Service.execute env s).events.getLast? = some Event.callShutdown := by
  rcases hSd : s.Shutdown with _ | sd
  · exact absurd hSd hsd
  rcases hR : s.Run with _ | runRet
  · simp [Service.execute, hR] at hrun
  by_cases hph : s.phase = Phase.waiting
  · rcases hO : (if env.otelEnabled then env.otelInitErr else none) with _ | e
    · rcases hI : s.Init with _ | (_ | e)
      · simp [Service.execute, execRest, hR, hph, hO, hI, hSd]
      · simp [Service.execute, execRest, hR, hph, hO, hI, hSd]
      · simp [Service.execute, hR, hph, hO, hI] at hrun
    · simp [Service.execute, hR, hph, hO] at hrun
  · simp [Service.execute, hR, hph] at hrun

/-- Witness for C2 at the concrete input `happySvc`. -/
theorem c2_witness :
    happySvc.Shutdown ≠ none ∧
    Event.callRun ∈ (Service.execute envNoOtel happySvc).events ∧
    ((Service.execute envNoOtel happySvc).events.count Event.callShutdown = 1 ∧
      (Service.execute envNoOtel happySvc).events.getLast? =
        some Event.callShutdown) :=
  ⟨by decide, by decide,
    c2_shutdown_exactly_once_after_run envNoOtel happySvc (by decide) (by decide)⟩

/-- Claim C3.  For every service where `Run` returns a non-cancellation error
E1 and `Shutdown` returns a non-nil error E2, the driver's returned error
carries both causes: E1 as the primary cause and E2 attached as related
context, each independently inspectable in the returned value. -/
theorem c3_run_and_shutdown_failures_both_carried (env : ExecEnv) (s : Service)
    (e1 e2 : Err)
    (hotel : env.otelEnabled = true → env.otelInitErr = none)
    (hph : s.phase = Phase.waiting)
    (hinit : ∀ e, s.Init ≠ some (some e))
    (hrun : s.Run = some (some e1)) (hc : errorsIsCanceled e1 = false)
    (hsd : s.Shutdown = some (some e2)) :
    (Service.execute env s).result =
      some ⟨[("service.name", s.Name), ("service.version", s.Version)],
        some e1, [e2], "service failed"⟩ := by
  rw [execute_eq_execRest env s (some e1) hrun hph hotel hinit]
  simp [execRest, finalResult, hsd, hc, AeBuilder.new, AeBuilder.Attr,
    AeBuilder.Cause, AeBuilder.Related, AeBuilder.Msg]

/-- Witness for C3 at the concrete input `bothFailSvc`. -/
theorem c3_witness :
    (Service.execute envNoOtel bothFailSvc).result =
      some ⟨[("service.name", "svc"), ("service.version", "1.0.0")],
        some (Err.leaf 1), [Err.leaf 2], "service failed"⟩ :=
  c3_run_and_shutdown_failures_both_carried envNoOtel bothFailSvc
    (Err.leaf 1) (Err.leaf 2) (fun h => by cases h) rfl
    (fun e => by simp [bothFailSvc]) rfl rfl rfl

/-- Claim C4 counterexample.  `Run` fails with cancellation and `Shutdown`
returns the non-nil error `context.Canceled`, yet the driver returns nil
rather than a plain ShutdownFailed error: the cancellation check is applied
to the `Shutdown` error as well, not only to `Run`'s. -/
theorem c4_counterexample :
    cancelCancelSvc.Run = some (some Err.canceled) ∧
    cancelCancelSvc.Shutdown = some (some Err.canceled) ∧
    (Service.execute envNoOtel cancelCancelSvc).result = none :=
  ⟨rfl, rfl, rfl⟩

/-- Claim C4 amended.  When `Run` fails with cancellation and `Shutdown`
returns a non-nil error, the driver returns a plain "service shutdown failed"
error carrying the `Shutdown` cause only when that error is itself not a
cancellation; a cancellation error returned by `Shutdown` is likewise folded
into a nil result. -/
theorem c4_amended_shutdown_cancellation_also_folded (env : ExecEnv)
    (s : Service) (e2 : Err)
    (hotel : env.otelEnabled = true → env.otelInitErr = none)
    (hph : s.phase = Phase.waiting)
    (hinit : ∀ e, s.Init ≠ some (some e))
    (hrun : s.Run = some (some Err.canceled))
    (hsd : s.Shutdown = some (some e2)) :
    (Service.execute env s).result =
      if errorsIsCanceled e2 then none
      else some ⟨[("service.name", s.Name), ("service.version", s.Version)],
        some e2, [], "service shutdown failed"⟩ := by
  rw [execute_eq_execRest env s (some Err.canceled) hrun hph hotel hinit]
  cases e2 <;>
    simp [execRest, finalResult, shutdownOnlyResult, hsd, errorsIsCanceled,
      AeBuilder.new, AeBuilder.Attr, AeBuilder.Cause, AeBuilder.Msg]

/-- Witness for the amended C4 at the concrete input `cancelSdFailSvc`. -/
theorem c4_witness :
    (Service.execute envNoOtel cancelSdFailSvc).result =
      some ⟨[("service.name", "svc"), ("service.version", "1.0.0")],
        some (Err.leaf 2), [], "service shutdown failed"⟩ := by
  have h := c4_amended_shutdown_cancellation_also_folded envNoOtel
    cancelSdFailSvc (Err.leaf 2) (fun h => by cases h) rfl
    (fun e => by simp [cancelSdFailSvc]) rfl rfl
  simpa [errorsIsCanceled] using h

/-- Claim C5 counterexample.  `Run` returns a non-cancellation error while
`Shutdown` succeeds: the terminal phase is `Stopped`, not `Error` — the
driver picks the terminal phase from the shutdown error alone. -/
theorem c5_counterexample :
    runFailSdOkSvc.Run = some (some (Err.leaf 1)) ∧
    errorsIsCanceled (Err.leaf 1) = false ∧
    (Service.execute envNoOtel runFailSdOkSvc).phase = Phase.stopped ∧
    (Service.execute envNoOtel runFailSdOkSvc).phase ≠ Phase.error :=
  ⟨rfl, rfl, rfl, by decide⟩

/-- Claim C5 amended.  Once `Run` is invoked the driver reaches exactly one of
the two terminal phases, but which one depends only on the shutdown error:
`Error` exactly when the `Shutdown` hook returned a non-nil error, `Stopped`
otherwise — even when `Run` failed with a non-cancellation error. -/
theorem c5_amended_terminal_phase_tracks_shutdown_only (env : ExecEnv)
    (s : Service) (runRet : Option Err)
    (hotel : env.otelEnabled = true → env.otelInitErr = none)
    (hph : s.phase = Phase.waiting)
    (hinit : ∀ e, s.Init ≠ some (some e))
    (hrun : s.Run = some runRet) :
    ((Service.execute env s).phase = Phase.error ↔
      (shutdownErrOf s).isSome = true) ∧
    ((Service.execute env s).phase = Phase.stopped ∨
      (Service.execute env s).phase = Phase.error) ∧
    ¬((Service.execute env s).phase = Phase.stopped ∧
      (Service.execute env s).phase = Phase.error) := by
  rw [execute_eq_execRest env s runRet hrun hph hotel hinit]
  rcases hSd : s.Shutdown with _ | (_ | e) <;>
    simp [execRest, shutdownErrOf, hSd]

/-- Witness for the amended C5 at the concrete input `runFailSdOkSvc`. -/
theorem c5_witness :
    ((Service.execute envNoOtel runFailSdOkSvc).phase = Phase.error ↔
      (shutdownErrOf runFailSdOkSvc).isSome = true) ∧
    ((Service.execute envNoOtel runFailSdOkSvc).phase = Phase.stopped ∨
      (Service.execute envNoOtel runFailSdOkSvc).phase = Phase.error) ∧
    ¬((Service.execute envNoOtel runFailSdOkSvc).phase = Phase.stopped ∧
      (Service.execute envNoOtel runFailSdOkSvc).phase = Phase.error) :=
  c5_amended_terminal_phase_tracks_shutdown_only envNoOtel runFailSdOkSvc
    (some (Err.leaf 1)) (fun h => by cases h) rfl
    (fun e => by simp [runFailSdOkSvc]) rfl

/-- Claim C6.  A second `Manager.Run` with an already-registered (name,
version) identity returns the "service already running" usage error with an
empty id, performs only the guarded map lookup (no `Init` and no `Run` of the
second service), leaves the record map unchanged, and so leaves exactly one
record with that identity registered. -/
theorem c6_duplicate_identity_rejected (m : Manager) (s : MSvc)
    (hdup : (mlookup m (s.name ++ "@" ++ s.version)).isSome = true)
    (hone : countKey m (s.name ++ "@" ++ s.version) = 1) :
    (Manager.Run m s).m = m ∧
    (Manager.Run m s).ret =
      ("", some ⟨[("name", s.name), ("version", s.version)], none, [],
        "service already running"⟩) ∧
    (Manager.Run m s).tr = lookupTrace ∧
    (∀ ev ∈ (Manager.Run m s).tr, ev.isSvcCall = false) ∧
    countKey (Manager.Run m s).m (s.name ++ "@" ++ s.version) = 1 := by
  rcases hL : mlookup m (s.name ++ "@" ++ s.version) with _ | s0
  · rw [hL] at hdup
    cases hdup
  · refine ⟨?_, ?_, ?_, ?_, ?_⟩ <;>
      simp [Manager.Run, hL, lookupTrace, AeBuilder.new, AeBuilder.Attr,
        AeBuilder.Msg, MEvent.isSvcCall, hone]

/-- Witness for C6: running a service with `msvcA`'s identity against the
two-record manager that already holds it. -/
theorem c6_witness :
    (Manager.Run mgrTwo msvcDup).m = mgrTwo ∧
    (Manager.Run mgrTwo msvcDup).ret =
      ("", some ⟨[("name", "alpha"), ("version", "1.0.0")], none, [],
        "service already running"⟩) ∧
    (Manager.Run mgrTwo msvcDup).tr = lookupTrace ∧
    (∀ ev ∈ (Manager.Run mgrTwo msvcDup).tr, ev.isSvcCall = false) ∧
    countKey (Manager.Run mgrTwo msvcDup).m ("alpha" ++ "@" ++ "1.0.0") = 1 :=
  c6_duplicate_identity_rejected mgrTwo msvcDup rfl rfl

/-- `WrapMany` returns nil exactly when no error was collected. -/
theorem WrapMany_eq_none (msg : String) (errs : List AeError) :
    WrapMany msg errs = none ↔ errs = [] := by
  cases errs <;> simp [WrapMany]

/-- A collected error is inspectable inside the `WrapMany` aggregate. -/
theorem WrapMany_some_of_mem (msg : String) (errs : List AeError) (x : AeError)
    (hx : x ∈ errs) :
    ∃ agg, WrapMany msg errs = some agg ∧ x ∈ agg.causes := by
  cases errs with
  | nil => cases hx
  | cons a l => exact ⟨⟨msg, a :: l⟩, rfl, hx⟩

/-- Claim C7.  `ShutdownAll` and `WaitAll` invoke the hook of every registered
record (no short-circuit at the first failure); the aggregate is nil exactly
when no record failed; every failing record's cause appears in the
aggregate; and each wrapped cause carries that service's name and version as
attributes with the service's error as its cause. -/
theorem c7_aggregation_no_short_circuit (m : Manager) :
    (∀ p ∈ m, MEvent.callShutdown p.1 ∈ (Manager.ShutdownAll m).tr) ∧
    (∀ p ∈ m, MEvent.callWait p.1 ∈ (Manager.WaitAll m).tr) ∧
    ((Manager.ShutdownAll m).ret = none ↔ ∀ p ∈ m, p.2.shutdownRes = none) ∧
    ((Manager.WaitAll m).ret = none ↔ ∀ p ∈ m, p.2.waitRes = none) ∧
    (∀ p ∈ m, ∀ e, p.2.shutdownRes = some e →
      ∃ agg, (Manager.ShutdownAll m).ret = some agg ∧
        svcWrapErr p.2 e "service failed to shutdown" ∈ agg.causes) ∧
    (∀ p ∈ m, ∀ e, p.2.waitRes = some e →
      ∃ agg, (Manager.WaitAll m).ret = some agg ∧
        svcWrapErr p.2 e "service exited with an error" ∈ agg.causes) ∧
    (∀ s : MSvc, ∀ e : Err, ∀ msg : String,
      (svcWrapErr s e msg).attrs = [("name", s.name), ("version", s.version)] ∧
      (svcWrapErr s e msg).cause = some e) := by
  refine ⟨?_, ?_, ?_, ?_, ?_, ?_, ?_⟩
  · intro p hp
    have h1 : MEvent.callShutdown p.1 ∈
        m.map (fun q => MEvent.callShutdown q.1) :=
      List.mem_map_of_mem _ hp
    simp only [Manager.ShutdownAll]
    exact List.mem_append.mpr (Or.inl (List.mem_append.mpr (Or.inr h1)))
  · intro p hp
    have h1 : MEvent.callWait p.1 ∈
        m.map (fun q => MEvent.callWait q.1) :=
      List.mem_map_of_mem _ hp
    simp only [Manager.WaitAll]
    exact List.mem_append.mpr (Or.inl (List.mem_append.mpr (Or.inr h1)))
  · simp [Manager.ShutdownAll, WrapMany_eq_none, List.filterMap_eq_nil_iff,
      Option.map_eq_none']
  · simp [Manager.WaitAll, WrapMany_eq_none, List.filterMap_eq_nil_iff,
      Option.map_eq_none']
  · intro p hp e he
    refine WrapMany_some_of_mem _ _ _ ?_
    simp only [List.mem_filterMap]
    exact ⟨p, hp, by simp [he]⟩
  · intro p hp e he
    refine WrapMany_some_of_mem _ _ _ ?_
    simp only [List.mem_filterMap]
    exact ⟨p, hp, by simp [he]⟩
  · intro s e msg
    exact ⟨rfl, rfl⟩

/-- Witness for C7 at the two-record manager `mgrTwo`. -/
theorem c7_witness :
    MEvent.callShutdown "alpha@1.0.0" ∈ (Manager.ShutdownAll mgrTwo).tr ∧
    MEvent.callWait "beta@2.0.0" ∈ (Manager.WaitAll mgrTwo).tr :=
  ⟨(c7_aggregation_no_short_circuit mgrTwo).1 ("alpha@1.0.0", msvcA)
      (by simp [mgrTwo]),
    (c7_aggregation_no_short_circuit mgrTwo).2.1 ("beta@2.0.0", msvcB)
      (by simp [mgrTwo])⟩

/-- Claim C8.  For an id absent from the record map, `Phase` returns the
distinguished unspecified phase, and `Shutdown` and `Wait` return nil; all
three perform only the guarded map lookup — no service hook is invoked and
the record map is unchanged. -/
theorem c8_unknown_id_noop (m : Manager) (id : String)
    (h : mlookup m id = none) :
    Manager.Phase m id = ⟨m, Phase.unspecified, lookupTrace⟩ ∧
    Manager.Shutdown m id = ⟨m, none, lookupTrace⟩ ∧
    Manager.Wait m id = ⟨m, none, lookupTrace⟩ ∧
    ∀ ev ∈ lookupTrace, ev.isSvcCall = false := by
  refine ⟨?_, ?_, ?_, ?_⟩ <;>
    simp [Manager.Phase, Manager.Shutdown, Manager.Wait, h, lookupTrace,
      MEvent.isSvcCall]

/-- Witness for C8 at an empty manager and a never-registered id. -/
theorem c8_witness :
    Manager.Phase ([] : Manager) "ghost@0.0.0" =
      ⟨([] : Manager), Phase.unspecified, lookupTrace⟩ ∧
    Manager.Shutdown ([] : Manager) "ghost@0.0.0" =
      ⟨([] : Manager), none, lookupTrace⟩ ∧
    Manager.Wait ([] : Manager) "ghost@0.0.0" =
      ⟨([] : Manager), none, lookupTrace⟩ :=
  ⟨(c8_unknown_id_noop ([] : Manager) "ghost@0.0.0" rfl).1,
    (c8_unknown_id_noop ([] : Manager) "ghost@0.0.0" rfl).2.1,
    (c8_unknown_id_noop ([] : Manager) "ghost@0.0.0" rfl).2.2.1⟩

/-- Claim C9 counterexample.  With one registered record, both `ShutdownAll`
and `WaitAll` invoke service code while `servicesMtx` is held: each takes the
write lock and only releases it (by `defer`) after the loop over the
services' `Shutdown`/`Wait` calls. -/
theorem c9_counterexample :
    svcCallWhileLocked (Manager.ShutdownAll mgrOne).tr = true ∧
    svcCallWhileLocked (Manager.WaitAll mgrOne).tr = true := ⟨rfl, rfl⟩

/-- Claim C9 amended.  The targeted operations (`Run`, `Phase`, `Shutdown`,
`Wait`) never hold the record-map lock across a call into service code, but
the bulk operations `ShutdownAll` and `WaitAll` hold the write lock across
every hook invocation of their loop whenever at least one record is
registered. -/
theorem c9_amended_bulk_ops_hold_lock (m : Manager) (s : MSvc) (id : String)
    (hm : m ≠ []) :
    svcCallWhileLocked (Manager.Run m s).tr = false ∧
    svcCallWhileLocked (Manager.Phase m id).tr = false ∧
    svcCallWhileLocked (Manager.Shutdown m id).tr = false ∧
    svcCallWhileLocked (Manager.Wait m id).tr = false ∧
    svcCallWhileLocked (Manager.ShutdownAll m).tr = true ∧
    svcCallWhileLocked (Manager.WaitAll m).tr = true := by
  refine ⟨?_, ?_, ?_, ?_, ?_, ?_⟩
  · rcases hL : mlookup m (s.name ++ "@" ++ s.version) with _ | s0
    · rcases hI : s.initRes with _ | e <;>
        simp [Manager.Run, hL, hI, lookupTrace, svcCallWhileLocked,
          svcCallWhileLockedFrom, MEvent.isSvcCall, MEvent.isAcquire,
          MEvent.isRelease]
    · simp [Manager.Run, hL, lookupTrace, svcCallWhileLocked,
        svcCallWhileLockedFrom, MEvent.isSvcCall, MEvent.isAcquire,
        MEvent.isRelease]
  · rcases hL : mlookup m id with _ | s0 <;>
      simp [Manager.Phase, hL, lookupTrace, svcCallWhileLocked,
        svcCallWhileLockedFrom, MEvent.isSvcCall, MEvent.isAcquire,
        MEvent.isRelease]
  · rcases hL : mlookup m id with _ | s0 <;>
      simp [Manager.Shutdown, hL, lookupTrace, svcCallWhileLocked,
        svcCallWhileLockedFrom, MEvent.isSvcCall, MEvent.isAcquire,
        MEvent.isRelease]
  · rcases hL : mlookup m id with _ | s0 <;>
      simp [Manager.Wait, hL, lookupTrace, svcCallWhileLocked,
        svcCallWhileLockedFrom, MEvent.isSvcCall, MEvent.isAcquire,
        MEvent.isRelease]
  · rcases m with _ | ⟨p, rest⟩
    · exact absurd rfl hm
    · simp [Manager.ShutdownAll, svcCallWhileLocked, svcCallWhileLockedFrom,
        MEvent.isSvcCall, MEvent.isAcquire, MEvent.isRelease]
  · rcases m with _ | ⟨p, rest⟩
    · exact absurd rfl hm
    · simp [Manager.WaitAll, svcCallWhileLocked, svcCallWhileLockedFrom,
        MEvent.isSvcCall, MEvent.isAcquire, MEvent.isRelease]

/-- Witness for the amended C9 at the one-record manager `mgrOne`. -/
theorem c9_witness :
    svcCallWhileLocked (Manager.Run mgrOne msvcB).tr = false ∧
    svcCallWhileLocked (Manager.Phase mgrOne "x@9").tr = false ∧
    svcCallWhileLocked (Manager.Shutdown mgrOne "x@9").tr = false ∧
    svcCallWhileLocked (Manager.Wait mgrOne "x@9").tr = false ∧
    svcCallWhileLocked (Manager.ShutdownAll mgrOne).tr = true ∧
    svcCallWhileLocked (Manager.WaitAll mgrOne).tr = true :=
  c9_amended_bulk_ops_hold_lock mgrOne msvcB "x@9" (by simp [mgrOne])

/-- Claim C10.  `IsRunning` returns true exactly when the phase field differs
from `Waiting`; in particular a service at a terminal phase (`Stopped` or
`Error`) still reports `IsRunning` as true. -/
theorem c10_isRunning_iff_not_waiting (s : Service) :
    (s.IsRunning = true ↔ s.phase ≠ Phase.waiting) ∧
    ((s.phase = Phase.stopped ∨ s.phase = Phase.error) → s.IsRunning = true) := by
  constructor
  · cases h : s.phase <;> simp [Service.IsRunning, h]
  · rintro (h | h) <;> simp [Service.IsRunning, h]

/-- Witness for C10: a service whose phase reached terminal `Stopped` still
reports `IsRunning` as true. -/
theorem c10_witness : stoppedSvc.IsRunning = true :=
  (c10_isRunning_iff_not_waiting stoppedSvc).2 (Or.inl rfl)

end ServiceSpec
